import Mathlib

/-
  Verification of the Modular Pink Trombone DSP core,
  a shallow embedding of src/pink_trombone_processor.js.

  Modelling conventions:
  - JS double-precision arithmetic is modelled over the real numbers.
  - Float64Array values are total functions from the index to the reals,
    equal to 0 outside the allocated range, matching zero-filled arrays.
  - Division by a zero denominator yields 0 in Lean, where JS would give
    NaN or Infinity; no statement below depends on the value of a
    division at a zero denominator, except where the NaN outcome itself
    is the point, and there an explicit NaN-tracking type is used.
  - JS truthiness of a number is modelled as the number being nonzero.
  - Math.round is round, Math.floor is Int.floor, Math.ceil is Int.ceil.
  - The movementSpeed < 0 branch of reshapeTract produces amount
    = Infinity in JS, which makes moveTowards return its target; it is
    modelled by returning the target directly.
-/

noncomputable section

/-- Source clamp helper of pink_trombone_processor.js (lines 57-61). -/
def clamp (number mn mx : ℝ) : ℝ :=
  if number < mn then mn else if number > mx then mx else number

/-- Source moveTowards helper (lines 63-66). -/
def moveTowards (current target amountUp amountDown : ℝ) : ℝ :=
  if current < target then min (current + amountUp) target
  else max (current - amountDown) target

/-- Source constrain helper (lines 807-809). -/
def constrain (n low high : ℝ) : ℝ := max (min n high) low

/-- Source map helper (lines 811-821), with the default withinBounds = true. -/
def map (n start1 stop1 start2 stop2 : ℝ) : ℝ :=
  let newval := (n - start1) / (stop1 - start1) * (stop2 - start2) + start2
  if start2 < stop2 then constrain newval start2 stop2 else constrain newval stop2 start2

/-- A-rate AudioParam read with the JS fallback idiom
    params[name][j] || params[name][0]: an out-of-range index gives
    undefined (falsy) and a stored 0 is also falsy, so both fall back to
    the first element. -/
def aRateAt (l : List ℝ) (j : ℕ) : ℝ :=
  match l.get? j with
  | some v => if v = 0 then l.headD 0 else v
  | none => l.headD 0

/-- Modelled from the spec: noise.js is imported by the processor but is
    not part of the repository sources.  Section 9 of the spec requires
    only that simplex1 is deterministic per seed with values in the
    interval from -1 to 1, so it is modelled as a fixed deterministic
    function of the seed and the time argument. -/
def simplex1 (seed : ℕ) (t : ℝ) : ℝ := Real.sin (t + seed)

/-- State of GlottisProcessor (fields of the class, lines 133-149 and the
    LF coefficients stored by setupWaveform, lines 205-211). -/
structure GlottisState where
  UITenseness : ℝ
  UIFrequency : ℝ
  vibratoAmount : ℝ
  vibratoFrequency : ℝ
  intensity : ℝ
  loudness : ℝ
  totalTime : ℝ
  timeInWaveform : ℝ
  waveformLength : ℝ
  frequency : ℝ
  oldFrequency : ℝ
  newFrequency : ℝ
  smoothFrequency : ℝ
  oldTenseness : ℝ
  newTenseness : ℝ
  Rd : ℝ
  alpha : ℝ
  E0 : ℝ
  epsilon : ℝ
  shift : ℝ
  Delta : ℝ
  Te : ℝ
  omega : ℝ

/-- GlottisProcessor.setupWaveform (lines 162-212). -/
def setupWaveform (lam : ℝ) (s : GlottisState) : GlottisState :=
  let frequency := s.oldFrequency * (1 - lam) + s.newFrequency * lam
  let tenseness := s.oldTenseness * (1 - lam) + s.newTenseness * lam
  let RdStored := 3 * (1 - tenseness)
  let waveformLength := 1 / frequency
  let Rd := if RdStored < 0.5 then 0.5 else if RdStored > 2.7 then 2.7 else RdStored
  let Ra := -0.01 + 0.048 * Rd
  let Rk := 0.224 + 0.118 * Rd
  let Rg := (Rk / 4) * (0.5 + 1.2 * Rk) / (0.11 * Rd - Ra * (0.5 + 1.2 * Rk))
  let Ta := Ra
  let Tp := 1 / (2 * Rg)
  let Te := Tp + Tp * Rk
  let epsilon := 1 / Ta
  let shift := Real.exp (-epsilon * (1 - Te))
  let Delta := 1 - shift
  let RHSIntegral0 := (1 / epsilon) * (shift - 1) + (1 - Te) * shift
  let RHSIntegral := RHSIntegral0 / Delta
  let totalLowerIntegral := -(Te - Tp) / 2 + RHSIntegral
  let totalUpperIntegral := -totalLowerIntegral
  let omega := Real.pi / Tp
  let sSin := Real.sin (omega * Te)
  let y := -Real.pi * sSin * totalUpperIntegral / (Tp * 2)
  let z := Real.log y
  let alpha := z / (Tp / 2 - Te)
  let E0 := -1 / (sSin * Real.exp (alpha * Te))
  { s with
    frequency := frequency
    waveformLength := waveformLength
    Rd := RdStored
    alpha := alpha
    E0 := E0
    epsilon := epsilon
    shift := shift
    Delta := Delta
    Te := Te
    omega := omega }

/-- GlottisProcessor.normalizedLFWaveform (lines 214-223). -/
def normalizedLFWaveform (s : GlottisState) (t : ℝ) : ℝ :=
  (if t > s.Te then (-Real.exp (-s.epsilon * (t - s.Te)) + s.shift) / s.Delta
   else s.E0 * Real.exp (s.alpha * t) * Real.sin (s.omega * t)) * s.intensity * s.loudness

/-- GlottisProcessor.getNoiseModulator (lines 241-244). -/
def getNoiseModulator (s : GlottisState) : ℝ :=
  let voiced := 0.1 + 0.2 * max 0 (Real.sin (Real.pi * 2 * s.timeInWaveform / s.waveformLength))
  s.UITenseness * s.intensity * voiced + (1 - s.UITenseness * s.intensity) * 0.3

/-- GlottisProcessor.runStep (lines 225-239); noiseF is the simplex1
    noise function of the voice. -/
def glottisRunStep (sr : ℝ) (noiseF : ℝ → ℝ) (lam noiseSource : ℝ) (s : GlottisState) :
    (ℝ × ℝ) × GlottisState :=
  let timeStep := 1.0 / sr
  let s1 := { s with timeInWaveform := s.timeInWaveform + timeStep,
                     totalTime := s.totalTime + timeStep }
  let s2 := if s1.timeInWaveform > s1.waveformLength then
      setupWaveform lam { s1 with timeInWaveform := s1.timeInWaveform - s1.waveformLength }
    else s1
  let out := normalizedLFWaveform s2 (s2.timeInWaveform / s2.waveformLength)
  let aspiration0 :=
    s2.intensity * (1 - Real.sqrt s2.UITenseness) * getNoiseModulator s2 * noiseSource * 8
  let aspiration := aspiration0 * (0.2 + 0.02 * noiseF (s2.totalTime * 1.99))
  ((out, aspiration), s2)

/-- GlottisProcessor.finishBlock (lines 246-261). -/
def finishGlottisBlock (noiseF : ℝ → ℝ) (s : GlottisState) : GlottisState :=
  let vibrato := s.vibratoAmount * Real.sin (2 * Real.pi * s.totalTime * s.vibratoFrequency)
      + 0.02 * noiseF (s.totalTime * 4.07)
  let sm1 := if s.UIFrequency > s.smoothFrequency
      then min (s.smoothFrequency * 1.1) s.UIFrequency else s.smoothFrequency
  let sm2 := if s.UIFrequency < sm1 then max (sm1 / 1.1) s.UIFrequency else sm1
  { s with
    smoothFrequency := sm2
    oldFrequency := s.newFrequency
    newFrequency := sm2 * (1 + vibrato)
    oldTenseness := s.newTenseness
    newTenseness := s.UITenseness + 0.1 * noiseF (s.totalTime * 0.46)
        + 0.05 * noiseF (s.totalTime * 0.36) }

/-- Per-block (k-rate) and per-sample (a-rate) control parameters of the
    Glottis (parameterDescriptors, lines 69-128). -/
structure GlottisParams where
  frequency : ℝ
  tenseness : ℝ
  vibratoAmount : ℝ
  vibratoFrequency : ℝ
  intensity : List ℝ
  tensenessMult : List ℝ
  pitchbend : List ℝ

/-- Per-sample parameter application in GlottisProcessor.process
    (lines 286-294): final tenseness, loudness, intensity and frequency
    with pitchbend. -/
def glottisApplyParams (p : GlottisParams) (j : ℕ) (s : GlottisState) : GlottisState :=
  let tensenessMult := aRateAt p.tensenessMult j
  let UITenseness := p.tenseness * tensenessMult
  { s with
    UITenseness := UITenseness
    loudness := (tensenessMult * UITenseness) ^ (0.25 : ℝ)
    intensity := aRateAt p.intensity j
    UIFrequency := p.frequency * (2 : ℝ) ^ (aRateAt p.pitchbend j / 12) }

/-- A transient of TractProcessor.addTransient (lines 549-558). -/
structure Transient where
  position : ℤ
  timeAlive : ℝ
  lifeTime : ℝ
  strength : ℝ
  exponent : ℝ

/-- State of TractProcessor: the class fields (lines 395-429) together
    with the fields assigned by init (lines 438-492) and
    calculateReflections (lines 494-514). -/
structure TractState where
  n : ℕ
  bladeStart : ℕ
  tipStart : ℕ
  lipStart : ℕ
  tongueLowerIndexBound : ℕ
  tongueUpperIndexBound : ℕ
  noseLength : ℕ
  noseStart : ℕ
  R : ℕ → ℝ
  L : ℕ → ℝ
  reflection : ℕ → ℝ
  newReflection : ℕ → ℝ
  junctionOutputR : ℕ → ℝ
  junctionOutputL : ℕ → ℝ
  diameter : ℕ → ℝ
  targetDiameter : ℕ → ℝ
  A : ℕ → ℝ
  noseR : ℕ → ℝ
  noseL : ℕ → ℝ
  noseJunctionOutputR : ℕ → ℝ
  noseJunctionOutputL : ℕ → ℝ
  noseReflection : ℕ → ℝ
  noseDiameter : ℕ → ℝ
  noseA : ℕ → ℝ
  reflectionLeft : ℝ
  reflectionRight : ℝ
  reflectionNose : ℝ
  newReflectionLeft : ℝ
  newReflectionRight : ℝ
  newReflectionNose : ℝ
  glottalReflection : ℝ
  lipReflection : ℝ
  fade : ℝ
  lastObstruction : ℤ
  movementSpeed : ℝ
  transientStrength : ℝ
  fricative_strength : ℝ
  velumTarget : ℝ
  transients : List Transient
  lipOutput : ℝ
  noseOutput : ℝ
  constrictionIndex : ℝ
  constrictionDiameter : ℝ
  tongueIndex : ℝ
  tongueDiameter : ℝ
  lipDiameter : ℝ

/-- The class-field initial values of TractProcessor (lines 395-429).
    noseLength, noseStart and the tongue index bounds are undefined in
    JS before the first init call; they are 0 here, and the constructor
    path never reads them before init assigns them. -/
def initialTractState : TractState where
  n := 44
  bladeStart := 10
  tipStart := 32
  lipStart := 39
  tongueLowerIndexBound := 0
  tongueUpperIndexBound := 0
  noseLength := 0
  noseStart := 0
  R := fun _ => 0
  L := fun _ => 0
  reflection := fun _ => 0
  newReflection := fun _ => 0
  junctionOutputR := fun _ => 0
  junctionOutputL := fun _ => 0
  diameter := fun _ => 0
  targetDiameter := fun _ => 0
  A := fun _ => 0
  noseR := fun _ => 0
  noseL := fun _ => 0
  noseJunctionOutputR := fun _ => 0
  noseJunctionOutputL := fun _ => 0
  noseReflection := fun _ => 0
  noseDiameter := fun _ => 0
  noseA := fun _ => 0
  reflectionLeft := 0
  reflectionRight := 0
  reflectionNose := 0
  newReflectionLeft := 0
  newReflectionRight := 0
  newReflectionNose := 0
  glottalReflection := 0.75
  lipReflection := -0.85
  fade := 1.0
  lastObstruction := -1
  movementSpeed := 15
  transientStrength := 1
  fricative_strength := 1
  velumTarget := 0.01
  transients := []
  lipOutput := 0
  noseOutput := 0
  constrictionIndex := 0
  constrictionDiameter := 3
  tongueIndex := 12.9
  tongueDiameter := 2.43
  lipDiameter := 5

/-- The rest diameter profile written by the first loop of
    setTargetDiameters (lines 666-672). -/
def restDiameter (n : ℕ) (i : ℕ) : ℝ :=
  if (i : ℝ) < 7 * n / 44 - 0.5 then 0.6
  else if (i : ℝ) < 12 * n / 44 then 1.1
  else 1.5

/-- The cosine shrink factor of the constriction loops in
    setTargetDiameters (lines 703-706 and 725-728). -/
def shrinkAmount (relpos width : ℝ) : ℝ :=
  if relpos ≤ 0 then 0
  else if relpos > width then 1
  else 0.5 * (1 - Real.cos (Real.pi * relpos / width))

/-- The tongue-body overlay of setTargetDiameters (lines 675-682),
    written per index: positions from bladeStart up to lipStart get the
    cosine bump, all others keep the base value. -/
def tongueShape (bladeStart tipStart lipStart : ℕ) (tongueIndex tongueDiameter : ℝ)
    (base : ℕ → ℝ) : ℕ → ℝ := fun i =>
  if bladeStart ≤ i ∧ i < lipStart then
    let t := 1.1 * Real.pi * (tongueIndex - i) / ((tipStart : ℝ) - (bladeStart : ℝ))
    let fixedTongueDiameter := 2 + (tongueDiameter - 2) / 1.5
    let curve0 := (1.5 - fixedTongueDiameter + 1.7) * Real.cos t
    let curve1 := if i = bladeStart - 2 ∨ i = lipStart - 1 then curve0 * 0.8 else curve0
    let curve2 := if i = bladeStart ∨ i = lipStart - 2 then curve1 * 0.94 else curve1
    1.5 - curve2
  else base i

/-- The tongue-tip constriction overlay of setTargetDiameters
    (lines 685-713), written per index.  A position p is written exactly
    when the outer guards hold and the loop offset p - round(index) is
    inside the iteration range; the JS loop runs the integer offsets k
    with -ceil(width)-1 <= k < width+1 and skips positions outside the
    array. -/
def constrictionShape (n tipStart : ℕ) (index dia0 : ℝ) (base : ℕ → ℝ) : ℕ → ℝ :=
  let dia1 := dia0 - 0.3
  let dia := if dia1 < 0 then 0 else dia1
  let width := map index (25 / 44 * n) tipStart 10 5 / 44 * n
  let intIndex := round index
  fun p =>
    if index ≠ 0 ∧ dia0 > -1.6 ∧ 2 ≤ index ∧ index < n ∧ dia < 3
        ∧ -(⌈width⌉ + 1) ≤ (p : ℤ) - intIndex ∧ (((p : ℤ) - intIndex : ℤ) : ℝ) < width + 1
        ∧ p < n then
      let relpos := |(p : ℝ) - index| - 0.5
      if dia < base p then dia + (base p - dia) * shrinkAmount relpos width else base p
    else base p

/-- The lip constriction overlay of setTargetDiameters (lines 716-732),
    written per index, with lIndex = n - 2 and lWidth = 5. -/
def lipShape (n : ℕ) (lipDia : ℝ) (base : ℕ → ℝ) : ℕ → ℝ :=
  let lIndex : ℝ := (n : ℝ) - 2
  let lWidth : ℝ := 5
  let intIndex := round lIndex
  fun p =>
    if -(⌈lWidth⌉ + 1) ≤ (p : ℤ) - intIndex ∧ (((p : ℤ) - intIndex : ℤ) : ℝ) < lWidth + 1
        ∧ p < n then
      let relpos := |(p : ℝ) - lIndex| - 0.5
      if lipDia < base p then lipDia + (base p - lipDia) * shrinkAmount relpos lWidth
      else base p
    else base p

/-- The full targetDiameter array written by setTargetDiameters: rest
    profile, then tongue body, then tongue-tip constriction, then lip
    constriction (lines 662-735). -/
def targetAfterSTD (n bladeStart tipStart lipStart : ℕ)
    (tongueIndex tongueDiameter cIndex cDia lipDia : ℝ) (old : ℕ → ℝ) : ℕ → ℝ :=
  lipShape n lipDia
    (constrictionShape n tipStart cIndex cDia
      (tongueShape bladeStart tipStart lipStart tongueIndex tongueDiameter
        (fun i => if i < n then restDiameter n i else old i)))

/-- The velumTarget side effect of setTargetDiameters (line 690): the
    velum opens to 0.4 when the constriction is truthy, wider than -1.6,
    past the nose start and narrower than -0.8. -/
def velumAfterSTD (noseStart : ℕ) (cIndex cDia velum : ℝ) : ℝ :=
  if cIndex ≠ 0 ∧ cDia > -1.6 ∧ cIndex > (noseStart : ℝ) ∧ cDia < -0.8 then 0.4 else velum

/-- TractProcessor.setTargetDiameters (lines 662-735). -/
def setTargetDiameters (s : TractState) : TractState :=
  { s with
    targetDiameter := targetAfterSTD s.n s.bladeStart s.tipStart s.lipStart
        s.tongueIndex s.tongueDiameter s.constrictionIndex s.constrictionDiameter
        s.lipDiameter s.targetDiameter
    velumTarget := velumAfterSTD s.noseStart s.constrictionIndex s.constrictionDiameter
        s.velumTarget }

/-- TractProcessor.calculateReflections (lines 494-514). -/
def calculateReflections (s : TractState) : TractState :=
  let A : ℕ → ℝ := fun i => if i < s.n then s.diameter i * s.diameter i else s.A i
  let reflection : ℕ → ℝ := fun i =>
    if 1 ≤ i ∧ i < s.n then s.newReflection i else s.reflection i
  let newReflection : ℕ → ℝ := fun i =>
    if 1 ≤ i ∧ i < s.n then
      (if A i = 0 then 0.999 else (A (i - 1) - A i) / (A (i - 1) + A i))
    else s.newReflection i
  let sum := A s.noseStart + A (s.noseStart + 1) + s.noseA 0
  { s with
    A := A
    reflection := reflection
    newReflection := newReflection
    reflectionLeft := s.newReflectionLeft
    reflectionRight := s.newReflectionRight
    reflectionNose := s.newReflectionNose
    newReflectionLeft := (2 * A s.noseStart - sum) / sum
    newReflectionRight := (2 * A (s.noseStart + 1) - sum) / sum
    newReflectionNose := (2 * s.noseA 0 - sum) / sum }

/-- TractProcessor.calculateNoseReflections (lines 516-526). -/
def calculateNoseReflections (s : TractState) : TractState :=
  let noseA : ℕ → ℝ := fun i =>
    if i < s.noseLength then s.noseDiameter i * s.noseDiameter i else s.noseA i
  let noseReflection : ℕ → ℝ := fun i =>
    if 1 ≤ i ∧ i < s.noseLength then (noseA (i - 1) - noseA i) / (noseA (i - 1) + noseA i)
    else s.noseReflection i
  { s with noseA := noseA, noseReflection := noseReflection }

/-- The nasal rest diameter profile of init (lines 479-487). -/
def noseRestDiameter (noseLength : ℕ) (i : ℕ) : ℝ :=
  let d := 2 * ((i : ℝ) / noseLength)
  min (if d < 1 then 0.4 + 1.6 * d else 0.5 + 1.5 * (2 - d)) 1.9

/-- TractProcessor.init (lines 438-492).  setTargetDiameters runs before
    noseStart is reassigned, so its velum condition still reads the old
    noseStart; calculateReflections runs before calculateNoseReflections,
    so it reads the freshly zeroed noseA. -/
def tractInit (n : ℕ) (s : TractState) : TractState :=
  let bladeStart := 10 * n / 44
  let tipStart := 32 * n / 44
  let lipStart := 39 * n / 44
  let s1 := { s with
    n := n
    bladeStart := bladeStart
    tipStart := tipStart
    lipStart := lipStart
    tongueLowerIndexBound := bladeStart + 2
    tongueUpperIndexBound := tipStart - 3
    diameter := fun _ => 0
    targetDiameter := fun _ => 0 }
  let s2 := setTargetDiameters s1
  let s3 := { s2 with diameter := s2.targetDiameter }
  let noseLength := 28 * n / 44
  let s4 := { s3 with
    R := fun _ => 0
    L := fun _ => 0
    reflection := fun _ => 0
    newReflection := fun _ => 0
    junctionOutputR := fun _ => 0
    junctionOutputL := fun _ => 0
    A := fun _ => 0
    noseLength := noseLength
    noseStart := n - noseLength + 1
    noseR := fun _ => 0
    noseL := fun _ => 0
    noseJunctionOutputR := fun _ => 0
    noseJunctionOutputL := fun _ => 0
    noseReflection := fun _ => 0
    noseDiameter := fun i => if i < noseLength then noseRestDiameter noseLength i else 0
    noseA := fun _ => 0
    newReflectionLeft := 0
    newReflectionRight := 0
    newReflectionNose := 0 }
  let s5 := calculateReflections s4
  let s6 := calculateNoseReflections s5
  { s6 with noseDiameter := Function.update s6.noseDiameter 0 s6.velumTarget }

/-- The newLastObstruction scan of reshapeTract (lines 530-534): the
    loop leaves the largest index with a nonpositive diameter, or -1. -/
def newObstruction (n : ℕ) (d : ℕ → ℝ) : ℤ :=
  (List.range n).foldl (fun a i => if d i ≤ 0 then (i : ℤ) else a) (-1)

/-- The per-segment easing rate of reshapeTract (lines 535-538). -/
def slowReturn (noseStart tipStart : ℕ) (i : ℕ) : ℝ :=
  if i < noseStart then 0.6
  else if i ≥ tipStart then 1.0
  else 0.6 + 0.4 * ((i : ℝ) - noseStart) / ((tipStart : ℝ) - noseStart)

/-- TractProcessor.addTransient (lines 549-558). -/
def addTransient (position : ℤ) (transientStrength : ℝ) (ts : List Transient) :
    List Transient :=
  ts ++ [{ position := position, timeAlive := 0, lifeTime := 0.2,
           strength := 0.3 * transientStrength, exponent := 200 }]

/-- TractProcessor.reshapeTract (lines 528-547).  A negative
    movementSpeed gives amount = Infinity in JS, which makes every
    moveTowards return its target; that branch is modelled by returning
    the target directly. -/
def reshapeTract (deltaTime : ℝ) (s : TractState) : TractState :=
  let instant := s.movementSpeed < 0
  let amount := deltaTime * s.movementSpeed
  let newOb := newObstruction s.n s.diameter
  let d : ℕ → ℝ := fun i =>
    if i < s.n then
      (if instant then s.targetDiameter i
       else moveTowards (s.diameter i) (s.targetDiameter i)
          (slowReturn s.noseStart s.tipStart i * amount) (2 * amount))
    else s.diameter i
  let transients :=
    if s.lastObstruction > -1 ∧ newOb = -1 ∧ s.noseA 0 < 0.05 ∧ s.fricative_strength ≠ 0
    then addTransient s.lastObstruction s.transientStrength s.transients
    else s.transients
  let nd0 :=
    if instant then s.velumTarget
    else moveTowards (s.noseDiameter 0) s.velumTarget (amount * 0.25) (amount * 0.1)
  { s with
    diameter := d
    lastObstruction := newOb
    transients := transients
    noseDiameter := fun i => if i = 0 then nd0 else s.noseDiameter i
    noseA := fun i => if i = 0 then nd0 * nd0 else s.noseA i }

/-- TractProcessor.processTransients (lines 560-576): each live
    transient injects half its amplitude into R and L at its position,
    ages by 1/(sampleRate*2), and expired transients are removed. -/
def processTransients (sr : ℝ) (s : TractState) : TractState :=
  let injected := s.transients.foldl
    (fun (p : (ℕ → ℝ) × (ℕ → ℝ)) t =>
      let amplitude := t.strength * (2 : ℝ) ^ (-t.exponent * t.timeAlive)
      let pos := t.position.toNat
      (Function.update p.1 pos (p.1 pos + amplitude / 2),
       Function.update p.2 pos (p.2 pos + amplitude / 2)))
    (s.R, s.L)
  let aged := s.transients.map fun t => { t with timeAlive := t.timeAlive + 1.0 / (sr * 2) }
  { s with
    R := injected.1
    L := injected.2
    transients := aged.filter fun t => decide (¬ t.timeAlive > t.lifeTime) }

/-- TractProcessor.addTurbulenceNoiseAtIndex (lines 587-602). -/
def addTurbulenceNoiseAtIndex (turbulenceNoise0 index diameter noiseModulator : ℝ)
    (s : TractState) : TractState :=
  let i := (⌊index⌋).toNat
  let delta := index - ⌊index⌋
  let turbulenceNoise := turbulenceNoise0 * noiseModulator
  let thinness0 := clamp (8 * (0.7 - diameter)) 0 1
  let openness := clamp (30 * (diameter - 0.3)) 0 1
  let noise0 := turbulenceNoise * (1 - delta) * thinness0 * openness
  let noise1 := turbulenceNoise * delta * thinness0 * openness
  { s with
    R := fun k =>
      if k = i + 1 then s.R (i + 1) + noise0 / 2
      else if k = i + 2 then s.R (i + 2) + noise1 / 2
      else s.R k
    L := fun k =>
      if k = i + 1 then s.L (i + 1) + noise0 / 2
      else if k = i + 2 then s.L (i + 2) + noise1 / 2
      else s.L k }

/-- TractProcessor.addTurbulenceNoise (lines 578-585). -/
def addTurbulenceNoise (turbulenceNoise noiseModulator : ℝ) (s : TractState) : TractState :=
  if s.constrictionIndex < 2 ∨ s.constrictionIndex > s.n then s
  else if s.constrictionDiameter ≤ 0 then s
  else
    addTurbulenceNoiseAtIndex (0.66 * turbulenceNoise * (s.fricative_strength * 2))
      s.constrictionIndex s.constrictionDiameter noiseModulator s

/-- TractProcessor.runStep (lines 604-655).  The nose-junction
    assignments overwrite the two-port values at noseStart, modelled by
    testing the nose index first; the oral damping uses the literal
    0.999 while the nasal damping uses the fade field. -/
def tractRunStep (sr glottalOutput turbulenceNoise lam noiseModulator : ℝ)
    (s0 : TractState) : TractState :=
  let s := addTurbulenceNoise turbulenceNoise noiseModulator (processTransients sr s0)
  let rL := s.newReflectionLeft * (1 - lam) + s.reflectionLeft * lam
  let rR := s.newReflectionRight * (1 - lam) + s.reflectionRight * lam
  let rN := s.newReflectionNose * (1 - lam) + s.reflectionNose * lam
  let jR : ℕ → ℝ := fun i =>
    if i = s.noseStart then rR * s.L i + (1 + rR) * (s.R (i - 1) + s.noseL 0)
    else if i = 0 then s.L 0 * s.glottalReflection + glottalOutput
    else if 1 ≤ i ∧ i < s.n then
      let r := s.reflection i * (1 - lam) + s.newReflection i * lam
      s.R (i - 1) - r * (s.R (i - 1) + s.L i)
    else s.junctionOutputR i
  let jL : ℕ → ℝ := fun i =>
    if i = s.noseStart then rL * s.R (i - 1) + (1 + rL) * (s.noseL 0 + s.L i)
    else if i = s.n then s.R (s.n - 1) * s.lipReflection
    else if 1 ≤ i ∧ i < s.n then
      let r := s.reflection i * (1 - lam) + s.newReflection i * lam
      s.L i + r * (s.R (i - 1) + s.L i)
    else s.junctionOutputL i
  let njR0 := rN * s.noseL 0 + (1 + rN) * (s.L s.noseStart + s.R (s.noseStart - 1))
  let R : ℕ → ℝ := fun i => if i < s.n then jR i * 0.999 else s.R i
  let L : ℕ → ℝ := fun i => if i < s.n then jL (i + 1) * 0.999 else s.L i
  let njR : ℕ → ℝ := fun i =>
    if i = 0 then njR0
    else if 1 ≤ i ∧ i < s.noseLength then
      s.noseR (i - 1) - s.noseReflection i * (s.noseR (i - 1) + s.noseL i)
    else s.noseJunctionOutputR i
  let njL : ℕ → ℝ := fun i =>
    if i = s.noseLength then s.noseR (s.noseLength - 1) * s.lipReflection
    else if 1 ≤ i ∧ i < s.noseLength then
      s.noseL i + s.noseReflection i * (s.noseR (i - 1) + s.noseL i)
    else s.noseJunctionOutputL i
  let noseR : ℕ → ℝ := fun i => if i < s.noseLength then njR i * s.fade else s.noseR i
  let noseL : ℕ → ℝ := fun i => if i < s.noseLength then njL (i + 1) * s.fade else s.noseL i
  { s with
    junctionOutputR := jR
    junctionOutputL := jL
    R := R
    L := L
    lipOutput := R (s.n - 1)
    noseJunctionOutputR := njR
    noseJunctionOutputL := njL
    noseR := noseR
    noseL := noseL
    noseOutput := noseR (s.noseLength - 1) }

/-- One sample of the four Tract input streams (process, lines 741-744). -/
structure TractIn where
  glottal : ℝ
  aspiration : ℝ
  fricative : ℝ
  noiseMod : ℝ

/-- One output sample of the Tract process loop (lines 775-791): two
    runStep calls at fractions j/N and (j+0.5)/N, outputs summed and
    scaled by 0.125. -/
def tractSampleStep (sr Nf : ℝ) (j : ℕ) (inp : TractIn) (s : TractState) :
    ℝ × TractState :=
  let glottalOutput := inp.aspiration + inp.glottal
  let s1 := tractRunStep sr glottalOutput inp.fricative ((j : ℝ) / Nf) inp.noiseMod s
  let v1 := s1.lipOutput + s1.noseOutput
  let s2 := tractRunStep sr glottalOutput inp.fricative (((j : ℝ) + 0.5) / Nf) inp.noiseMod s1
  ((v1 + s2.lipOutput + s2.noseOutput) * 0.125, s2)

/-- The Tract process sample loop over a block of inputs. -/
def runTractSamples (sr Nf : ℝ) : ℕ → List TractIn → TractState → List ℝ × TractState
  | _, [], s => ([], s)
  | j, inp :: rest, s =>
    let step := tractSampleStep sr Nf j inp s
    let next := runTractSamples sr Nf (j + 1) rest step.2
    (step.1 :: next.1, next.2)

/-- TractProcessor.finishBlock (lines 657-660); blockTime is
    128/sampleRate (line 421). -/
def finishTractBlock (sr : ℝ) (s : TractState) : TractState :=
  calculateReflections (reshapeTract (128 / sr) s)

/-- Control parameters of the Tract (parameterDescriptors,
    lines 315-391), as read at block start in process (lines 753-773). -/
structure TractParams where
  n : ℝ
  velumTarget : ℝ
  constrictionIndex : ℝ
  constrictionDiameter : ℝ
  tongueIndex : ℝ
  tongueDiameter : ℝ
  lipDiameter : ℝ
  movementSpeed : ℝ
  fricatives : ℝ
  transients : ℝ

/-- TractProcessor.process (lines 737-803): optional re-init on an n
    change, parameter application, setTargetDiameters, the sample loop,
    and finishBlock. -/
def tractProcessBlock (sr : ℝ) (p : TractParams) (ins : List TractIn) (s : TractState) :
    List ℝ × TractState :=
  let s0 := if ⌊p.n⌋ ≠ (s.n : ℤ) then tractInit (⌊p.n⌋).toNat s else s
  let s1 := { s0 with
    velumTarget := p.velumTarget
    constrictionIndex := p.constrictionIndex * s0.n
    constrictionDiameter := p.constrictionDiameter + 0.3
    tongueIndex := p.tongueIndex * ((s0.tongueUpperIndexBound : ℝ) - s0.tongueLowerIndexBound)
        + s0.tongueLowerIndexBound
    tongueDiameter := p.tongueDiameter
    lipDiameter := p.lipDiameter }
  let s2 := setTargetDiameters s1
  let s3 := { s2 with
    movementSpeed := p.movementSpeed
    fricative_strength := p.fricatives
    transientStrength := p.transients }
  let loop := runTractSamples sr ins.length 0 ins s3
  (loop.1, finishTractBlock sr loop.2)

/-- The Glottis process sample loop (lines 283-302): per-sample
    parameter application, one runStep at fraction j/N, and the three
    output streams (voiced, aspiration, noise modulator). -/
def runGlottisSamples (sr : ℝ) (noiseF : ℝ → ℝ) (p : GlottisParams) (Nn : ℕ) :
    ℕ → List ℝ → GlottisState → List (ℝ × ℝ × ℝ) × GlottisState
  | _, [], s => ([], s)
  | j, x :: rest, s =>
    let s1 := glottisApplyParams p j s
    let step := glottisRunStep sr noiseF ((j : ℝ) / Nn) x s1
    let nm := getNoiseModulator step.2
    let next := runGlottisSamples sr noiseF p Nn (j + 1) rest step.2
    ((step.1.1, step.1.2, nm) :: next.1, next.2)

/-- GlottisProcessor.process (lines 264-310): k-rate vibrato parameters,
    the sample loop, and finishBlock. -/
def glottisProcessBlock (sr : ℝ) (noiseF : ℝ → ℝ) (p : GlottisParams) (noiseIn : List ℝ)
    (s : GlottisState) : List (ℝ × ℝ × ℝ) × GlottisState :=
  let s0 := { s with vibratoAmount := p.vibratoAmount, vibratoFrequency := p.vibratoFrequency }
  let loop := runGlottisSamples sr noiseF p noiseIn.length 0 noiseIn s0
  (loop.1, finishGlottisBlock noiseF loop.2)

/-- Wiring of the voice graph: the Glottis output streams and the
    fricative noise stream become the four Tract input streams. -/
def mkTractIns : List (ℝ × ℝ × ℝ) → List ℝ → List TractIn
  | [], _ => []
  | _ :: _, [] => []
  | g :: gs, f :: fs =>
    { glottal := g.1, aspiration := g.2.1, fricative := f, noiseMod := g.2.2 }
      :: mkTractIns gs fs

/-- Inputs of one voice block: the control parameters of both
    processors and the two host noise streams. -/
structure VoiceBlockIn where
  gp : GlottisParams
  tp : TractParams
  aspNoise : List ℝ
  fricNoise : List ℝ

/-- One block of a voice: the Glottis block feeding the Tract block. -/
def voiceBlock (sr : ℝ) (noiseF : ℝ → ℝ) (b : VoiceBlockIn)
    (st : GlottisState × TractState) : List ℝ × (GlottisState × TractState) :=
  let g := glottisProcessBlock sr noiseF b.gp b.aspNoise st.1
  let t := tractProcessBlock sr b.tp (mkTractIns g.1 b.fricNoise) st.2
  (t.1, (g.2, t.2))

/-- A run of a voice over a sequence of blocks. -/
def voiceRun (sr : ℝ) (noiseF : ℝ → ℝ) :
    List VoiceBlockIn → GlottisState × TractState →
      List (List ℝ) × (GlottisState × TractState)
  | [], st => ([], st)
  | b :: rest, st =>
    let blk := voiceBlock sr noiseF b st
    let next := voiceRun sr noiseF rest blk.2
    (blk.1 :: next.1, next.2)

/-- A JS number restricted to the NaN distinction: either NaN or an
    ordinary (finite) value.  Multiplication propagates NaN, as IEEE
    double multiplication does. -/
inductive JSNum where
  | nan : JSNum
  | num : ℝ → JSNum

/-- NaN-propagating multiplication of JS numbers. -/
def jsMul : JSNum → JSNum → JSNum
  | JSNum.nan, _ => JSNum.nan
  | _, JSNum.nan => JSNum.nan
  | JSNum.num a, JSNum.num b => JSNum.num (a * b)

/-- The block output stage of TractProcessor.process (lines 788-790):
    outArray[j] = vocalOutput * 0.125, with the NaN status of the
    sample tracked. -/
def tractOutputStage (vocalOutput : JSNum) : JSNum := jsMul vocalOutput (JSNum.num 0.125)

/-- The return value of TractProcessor.process as a function of whether
    its inputs are defined and whether the try body raises: true early
    when inputs are missing (line 749), true at the end of the try
    block (line 802), false from the catch branch (line 800). -/
def tractProcessResult (inputsDefined : Bool) (body : Except Unit Unit) : Bool :=
  if !inputsDefined then true
  else
    match body with
    | Except.ok _ => true
    | Except.error _ => false

/-- The return value of GlottisProcessor.process: true early when the
    input is missing (line 273), true at the end of the try block
    (line 305), true from the catch branch (line 308). -/
def glottisProcessResult (inputDefined : Bool) (body : Except Unit Unit) : Bool :=
  if !inputDefined then true
  else
    match body with
    | Except.ok _ => true
    | Except.error _ => true

/-- The clamp written with two if tests, as in setupWaveform, agrees
    with the min and max form. -/
theorem ifClamp_eq_min_max (x : ℝ) :
    (if x < 0.5 then (0.5 : ℝ) else if x > 2.7 then 2.7 else x)
      = min 2.7 (max 0.5 x) := by
  split_ifs with h1 h2
  · rw [max_eq_left h1.le, min_eq_right]; norm_num
  · rw [max_eq_right (not_lt.mp h1), min_eq_left h2.le]
  · rw [max_eq_right (not_lt.mp h1), min_eq_right (not_lt.mp h2)]

/-- The housekeeping phase of runStep (processTransients followed by
    addTurbulenceNoise) only writes R, L and the transient list; all
    other fields pass through. -/
theorem housekeeping_proj (sr t nm : ℝ) (s : TractState) :
    (addTurbulenceNoise t nm (processTransients sr s)).n = s.n ∧
    (addTurbulenceNoise t nm (processTransients sr s)).noseStart = s.noseStart ∧
    (addTurbulenceNoise t nm (processTransients sr s)).noseLength = s.noseLength ∧
    (addTurbulenceNoise t nm (processTransients sr s)).reflectionLeft = s.reflectionLeft ∧
    (addTurbulenceNoise t nm (processTransients sr s)).reflectionRight = s.reflectionRight ∧
    (addTurbulenceNoise t nm (processTransients sr s)).reflectionNose = s.reflectionNose ∧
    (addTurbulenceNoise t nm (processTransients sr s)).newReflectionLeft = s.newReflectionLeft ∧
    (addTurbulenceNoise t nm (processTransients sr s)).newReflectionRight = s.newReflectionRight ∧
    (addTurbulenceNoise t nm (processTransients sr s)).newReflectionNose = s.newReflectionNose ∧
    (addTurbulenceNoise t nm (processTransients sr s)).reflection = s.reflection ∧
    (addTurbulenceNoise t nm (processTransients sr s)).newReflection = s.newReflection ∧
    (addTurbulenceNoise t nm (processTransients sr s)).noseReflection = s.noseReflection ∧
    (addTurbulenceNoise t nm (processTransients sr s)).fade = s.fade ∧
    (addTurbulenceNoise t nm (processTransients sr s)).glottalReflection = s.glottalReflection ∧
    (addTurbulenceNoise t nm (processTransients sr s)).lipReflection = s.lipReflection ∧
    (addTurbulenceNoise t nm (processTransients sr s)).noseR = s.noseR ∧
    (addTurbulenceNoise t nm (processTransients sr s)).noseL = s.noseL ∧
    (addTurbulenceNoise t nm (processTransients sr s)).noseJunctionOutputR
        = s.noseJunctionOutputR ∧
    (addTurbulenceNoise t nm (processTransients sr s)).noseJunctionOutputL
        = s.noseJunctionOutputL ∧
    (addTurbulenceNoise t nm (processTransients sr s)).junctionOutputR = s.junctionOutputR ∧
    (addTurbulenceNoise t nm (processTransients sr s)).junctionOutputL = s.junctionOutputL := by
  unfold addTurbulenceNoise
  split
  · exact ⟨rfl, rfl, rfl, rfl, rfl, rfl, rfl, rfl, rfl, rfl, rfl, rfl, rfl, rfl, rfl, rfl,
      rfl, rfl, rfl, rfl, rfl⟩
  · split
    · exact ⟨rfl, rfl, rfl, rfl, rfl, rfl, rfl, rfl, rfl, rfl, rfl, rfl, rfl, rfl, rfl, rfl,
        rfl, rfl, rfl, rfl, rfl⟩
    · exact ⟨rfl, rfl, rfl, rfl, rfl, rfl, rfl, rfl, rfl, rfl, rfl, rfl, rfl, rfl, rfl, rfl,
        rfl, rfl, rfl, rfl, rfl⟩

set_option maxHeartbeats 1000000 in
/-- Claim C1: for every interpolation fraction lambda, setupWaveform
    computes the LF coefficients exactly as the derivation in the spec,
    from the tenseness blend through Rd (clamped to the interval from
    0.5 to 2.7), Ra, Rk, Rg, Tp, Te, epsilon, shift, Delta, RHSIntegral,
    upperI, omega, alpha and E0. -/
theorem setupWaveform_follows_spec (lam : ℝ) (s : GlottisState) :
    let tenseness := s.oldTenseness * (1 - lam) + s.newTenseness * lam
    let Rd := min 2.7 (max 0.5 (3 * (1 - tenseness)))
    let Ra := -0.01 + 0.048 * Rd
    let Rk := 0.224 + 0.118 * Rd
    let Rg := (Rk / 4) * (0.5 + 1.2 * Rk) / (0.11 * Rd - Ra * (0.5 + 1.2 * Rk))
    let Tp := 1 / (2 * Rg)
    let Te := Tp + Tp * Rk
    let epsilon := 1 / Ra
    let shift := Real.exp (-epsilon * (1 - Te))
    let Delta := 1 - shift
    let RHSIntegral := ((shift - 1) / epsilon + (1 - Te) * shift) / Delta
    let upperI := -(-(Te - Tp) / 2 + RHSIntegral)
    let omega := Real.pi / Tp
    let alpha := Real.log (-Real.pi * Real.sin (omega * Te) * upperI / (2 * Tp)) / (Tp / 2 - Te)
    let E0 := -1 / (Real.sin (omega * Te) * Real.exp (alpha * Te))
    (setupWaveform lam s).epsilon = epsilon ∧
    (setupWaveform lam s).shift = shift ∧
    (setupWaveform lam s).Delta = Delta ∧
    (setupWaveform lam s).Te = Te ∧
    (setupWaveform lam s).omega = omega ∧
    (setupWaveform lam s).alpha = alpha ∧
    (setupWaveform lam s).E0 = E0 := by
  simp only [setupWaveform, ifClamp_eq_min_max]
  refine ⟨trivial, trivial, trivial, trivial, trivial, ?_, ?_⟩
  · congr 1
    congr 1
    ring
  · congr 1
    congr 1
    congr 1
    congr 1
    congr 1
    congr 1
    ring

/-- A Tract state with the geometry that init(44) computes and the
    class-field defaults elsewhere, used as a base for concrete probe
    states. -/
def probeTract : TractState :=
  { initialTractState with
    noseLength := 28
    noseStart := 17
    tongueLowerIndexBound := 12
    tongueUpperIndexBound := 29 }

/-- Probe state for the nose-junction interpolation direction: the old
    coefficient reflectionLeft is 0, the new coefficient
    newReflectionLeft is 1, and a unit right-travelling wave sits just
    before the junction. -/
def tractC2State : TractState :=
  { probeTract with
    newReflectionLeft := 1
    R := fun i => if i = 16 then 1 else 0 }

/-- Claim C2 counterexample: at lambda = 0 the junction output computed
    by runStep is 1, while the value demanded by the claim formula
    reflectionLeft*(1-lambda) + newReflectionLeft*lambda is 0, so the
    claimed interpolation direction is wrong. -/
theorem noseJunction_spec_direction_fails :
    ¬ ((tractRunStep 48000 0 0 0 0 tractC2State).junctionOutputL tractC2State.noseStart
      = (tractC2State.reflectionLeft * (1 - 0) + tractC2State.newReflectionLeft * 0)
          * tractC2State.R (tractC2State.noseStart - 1)
        + (1 + (tractC2State.reflectionLeft * (1 - 0) + tractC2State.newReflectionLeft * 0))
          * (tractC2State.noseL 0 + tractC2State.L tractC2State.noseStart)) := by
  simp only [tractRunStep, processTransients, addTurbulenceNoise, tractC2State, probeTract,
    initialTractState, List.foldl_nil, List.map_nil, List.filter_nil]
  norm_num

/-- Claim C2 amended: the three nose-junction coefficients are
    interpolated with the weights swapped relative to the two-port oral
    junctions: each equals newReflectionX*(1-lambda) + reflectionX*lambda
    (new coefficient weighted by 1-lambda, old coefficient weighted by
    lambda). -/
theorem noseJunction_uses_reversed_interpolation
    (sr g t lam nm : ℝ) (s : TractState) :
    (tractRunStep sr g t lam nm s).junctionOutputL s.noseStart
        = (s.newReflectionLeft * (1 - lam) + s.reflectionLeft * lam)
            * (addTurbulenceNoise t nm (processTransients sr s)).R (s.noseStart - 1)
          + (1 + (s.newReflectionLeft * (1 - lam) + s.reflectionLeft * lam))
            * ((addTurbulenceNoise t nm (processTransients sr s)).noseL 0
              + (addTurbulenceNoise t nm (processTransients sr s)).L s.noseStart) ∧
    (tractRunStep sr g t lam nm s).junctionOutputR s.noseStart
        = (s.newReflectionRight * (1 - lam) + s.reflectionRight * lam)
            * (addTurbulenceNoise t nm (processTransients sr s)).L s.noseStart
          + (1 + (s.newReflectionRight * (1 - lam) + s.reflectionRight * lam))
            * ((addTurbulenceNoise t nm (processTransients sr s)).R (s.noseStart - 1)
              + (addTurbulenceNoise t nm (processTransients sr s)).noseL 0) ∧
    (tractRunStep sr g t lam nm s).noseJunctionOutputR 0
        = (s.newReflectionNose * (1 - lam) + s.reflectionNose * lam)
            * (addTurbulenceNoise t nm (processTransients sr s)).noseL 0
          + (1 + (s.newReflectionNose * (1 - lam) + s.reflectionNose * lam))
            * ((addTurbulenceNoise t nm (processTransients sr s)).L s.noseStart
              + (addTurbulenceNoise t nm (processTransients sr s)).R (s.noseStart - 1)) := by
  obtain ⟨-, hns, hnl, hrl, hrr, hrn, hnrl, hnrr, hnrn, -, -, -, -, -, -, -, -, -, -, -, -⟩ :=
    housekeeping_proj sr t nm s
  refine ⟨?_, ?_, ?_⟩
  · simp only [tractRunStep, hns, hrl, hnrl, eq_self_iff_true, if_true]
  · simp only [tractRunStep, hns, hrr, hnrr, eq_self_iff_true, if_true]
  · simp only [tractRunStep, hns, hrn, hnrn, eq_self_iff_true, if_true]

/-- Probe state for the nasal damping factor: a unit right-travelling
    nasal wave in segment 0 and zero nasal reflection coefficients. -/
def tractC3State : TractState :=
  { probeTract with
    noseR := fun i => if i = 0 then 1 else 0 }

/-- Claim C3 counterexample: after one runStep, noseR[1] is 1 while
    the claimed value noseJunctionOutputR[1] * 0.999 is 0.999: the nasal
    branch is multiplied by the fade field, which is 1.0, not by the
    oral damping factor 0.999. -/
theorem noseWaves_not_damped_0999 :
    ¬ ((tractRunStep 48000 0 0 0 0 tractC3State).noseR 1
      = (tractRunStep 48000 0 0 0 0 tractC3State).noseJunctionOutputR 1 * 0.999) := by
  simp only [tractRunStep, processTransients, addTurbulenceNoise, tractC3State, probeTract,
    initialTractState, List.foldl_nil, List.map_nil, List.filter_nil]
  norm_num

/-- Claim C3 amended: the nasal wave components are scaled by the fade
    field, which the class initializes to 1.0 and no code ever changes
    (so the nasal branch is undamped), while the oral branch uses the
    literal factor 0.999. -/
theorem noseWaves_scaled_by_fade_field (sr g t lam nm : ℝ) (s : TractState) :
    (tractRunStep sr g t lam nm s).noseR
        = (fun i => if i < s.noseLength
            then (tractRunStep sr g t lam nm s).noseJunctionOutputR i * s.fade
            else s.noseR i) ∧
    (tractRunStep sr g t lam nm s).noseL
        = (fun i => if i < s.noseLength
            then (tractRunStep sr g t lam nm s).noseJunctionOutputL (i + 1) * s.fade
            else s.noseL i) ∧
    (tractRunStep sr g t lam nm s).R
        = (fun i => if i < s.n
            then (tractRunStep sr g t lam nm s).junctionOutputR i * 0.999
            else (addTurbulenceNoise t nm (processTransients sr s)).R i) ∧
    initialTractState.fade = 1 ∧
    (∀ (n0 : ℕ) (s0 : TractState), (tractInit n0 s0).fade = s0.fade) := by
  obtain ⟨hn, -, hnl, -, -, -, -, -, -, -, -, -, hfade, -, -, hnoseR, hnoseL, -, -, -, -⟩ :=
    housekeeping_proj sr t nm s
  refine ⟨?_, ?_, ?_, by norm_num [initialTractState], fun n0 s0 => rfl⟩
  · simp only [tractRunStep, hnl, hfade, hnoseR]
  · simp only [tractRunStep, hnl, hfade, hnoseL]
  · simp only [tractRunStep, hn]

/-- Claim C5: reshapeTract appends a transient exactly when the
    previous lastObstruction was above -1, the newly computed
    obstruction scan gives -1, noseA[0] is below 0.05, and the fricative
    strength is positive (the JS truthiness test, equivalent to
    positivity for a nonnegative strength); the new transient sits at
    the previous obstruction with timeAlive 0, lifeTime 0.2, strength
    0.3 times transientStrength and exponent 200, and otherwise the
    collection is left unchanged. -/
theorem reshapeTract_transient_trigger (dt : ℝ) (s : TractState)
    (hfs : 0 ≤ s.fricative_strength) :
    (reshapeTract dt s).transients
      = if s.lastObstruction > -1 ∧ newObstruction s.n s.diameter = -1
            ∧ s.noseA 0 < 0.05 ∧ 0 < s.fricative_strength
        then s.transients
          ++ [{ position := s.lastObstruction, timeAlive := 0, lifeTime := 0.2,
                strength := 0.3 * s.transientStrength, exponent := 200 }]
        else s.transients := by
  have hiff : (s.fricative_strength ≠ 0) = (0 < s.fricative_strength) :=
    propext ⟨fun h => lt_of_le_of_ne hfs (Ne.symm h), fun h => h.ne'⟩
  simp only [reshapeTract, addTransient, hiff]

/-- Claim C5 witness: the trigger characterization applied at the
    init-shaped probe state. -/
theorem reshapeTract_transient_trigger_witness :
    (0 : ℝ) ≤ probeTract.fricative_strength ∧
    (reshapeTract 0.1 probeTract).transients
      = if probeTract.lastObstruction > -1
            ∧ newObstruction probeTract.n probeTract.diameter = -1
            ∧ probeTract.noseA 0 < 0.05 ∧ 0 < probeTract.fricative_strength
        then probeTract.transients
          ++ [{ position := probeTract.lastObstruction, timeAlive := 0, lifeTime := 0.2,
                strength := 0.3 * probeTract.transientStrength, exponent := 200 }]
        else probeTract.transients :=
  ⟨by norm_num [probeTract, initialTractState],
   reshapeTract_transient_trigger 0.1 probeTract
     (by norm_num [probeTract, initialTractState])⟩

/-- A Glottis state with the class-field default values; the fields
    first assigned by setupWaveform are 0 before init runs. -/
def probeGlottis : GlottisState where
  UITenseness := 0.6
  UIFrequency := 140
  vibratoAmount := 0.005
  vibratoFrequency := 6
  intensity := 0
  loudness := 1
  totalTime := 0
  timeInWaveform := 0
  waveformLength := 0
  frequency := 0
  oldFrequency := 140
  newFrequency := 140
  smoothFrequency := 140
  oldTenseness := 0.6
  newTenseness := 0.6
  Rd := 0
  alpha := 0
  E0 := 0
  epsilon := 0
  shift := 0
  Delta := 0
  Te := 0
  omega := 0

/-- Probe parameters for the loudness computation: base tenseness 1 and
    tenseness multiplier 1/16. -/
def glottisC6Params : GlottisParams where
  frequency := 140
  tenseness := 1
  vibratoAmount := 0.005
  vibratoFrequency := 6
  intensity := [1]
  tensenessMult := [1 / 16]
  pitchbend := [0]

/-- Claim C6 counterexample: with tenseness parameter 1 and multiplier
    1/16 the loudness computed by the code is (1/256)^(1/4) = 1/4, while
    the claimed (tenseness-mult times tenseness)^(1/4) is
    (1/16)^(1/4) = 1/2: the multiplier enters the loudness twice. -/
theorem glottis_loudness_claim_false :
    ¬ ((glottisApplyParams glottisC6Params 0 probeGlottis).loudness
      = (aRateAt glottisC6Params.tensenessMult 0 * glottisC6Params.tenseness)
          ^ (0.25 : ℝ)) := by
  have e1 : aRateAt glottisC6Params.tensenessMult 0 = 1 / 16 := by
    norm_num [aRateAt, glottisC6Params]
  have h4 : (((4 : ℕ) : ℝ))⁻¹ = (0.25 : ℝ) := by norm_num
  have hL : ((1 / 16 : ℝ) * (1 * (1 / 16))) ^ (0.25 : ℝ) = 1 / 4 := by
    have hb : ((1 / 16 : ℝ) * (1 * (1 / 16))) = (1 / 4 : ℝ) ^ (4 : ℕ) := by norm_num
    rw [hb, ← h4, Real.pow_rpow_inv_natCast (by norm_num) (by norm_num)]
  have hR : ((1 / 16 : ℝ) * 1) ^ (0.25 : ℝ) = 1 / 2 := by
    have hb : ((1 / 16 : ℝ) * 1) = (1 / 2 : ℝ) ^ (4 : ℕ) := by norm_num
    rw [hb, ← h4, Real.pow_rpow_inv_natCast (by norm_num) (by norm_num)]
  intro h
  simp only [glottisApplyParams, e1] at h
  simp only [glottisC6Params] at h
  rw [hL, hR] at h
  norm_num at h

/-- Claim C6 amended: the loudness used for a sample equals
    (tenseness-mult squared times the tenseness parameter)^(1/4) - the
    code multiplies the multiplier into the tenseness and then again
    into the loudness base. -/
theorem glottis_loudness_squares_mult (p : GlottisParams) (j : ℕ) (s : GlottisState) :
    (glottisApplyParams p j s).loudness
      = ((aRateAt p.tensenessMult j) ^ (2 : ℕ) * p.tenseness) ^ (0.25 : ℝ) := by
  simp only [glottisApplyParams]
  congr 1
  ring

/-- Claim C7 counterexample: the output stage of the Tract block does
    not replace NaN with 0; a NaN vocal output is emitted as NaN. -/
theorem tract_output_nan_not_replaced :
    tractOutputStage JSNum.nan ≠ JSNum.num 0 ∧ tractOutputStage JSNum.nan = JSNum.nan := by
  refine ⟨fun h => ?_, rfl⟩
  exact JSNum.noConfusion h

/-- Claim C7 amended: the block output stage multiplies by 0.125 and
    performs no NaN filtering: the emitted sample is NaN exactly when
    the internal vocal output is NaN. -/
theorem tract_output_stage_preserves_nan (v : JSNum) :
    tractOutputStage v = JSNum.nan ↔ v = JSNum.nan := by
  cases v <;> simp [tractOutputStage, jsMul]

/-- Claim C8 counterexample: when the Tract try body raises, process
    returns false, which terminates the Tract processor rather than
    keeping it alive. -/
theorem tract_process_returns_false_on_error :
    tractProcessResult true (Except.error ()) = false := rfl

/-- Claim C8 amended: on an exception the Glottis process returns true
    (keep-alive) but the Tract process returns false (terminating that
    processor); only the non-raising Tract path returns true. -/
theorem process_return_values (b : Except Unit Unit) (e : Unit) :
    glottisProcessResult true b = true
      ∧ tractProcessResult true (Except.error e) = false
      ∧ tractProcessResult true (Except.ok ()) = true := by
  refine ⟨?_, rfl, rfl⟩
  cases b <;> rfl

/-- Claim C9: two voice runs with the same sample rate, the same noise
    seed, the same block inputs (control parameters and noise streams)
    and the same initial processor states produce identical output
    sample streams and identical final states.  The noise function is
    the spec-modelled simplex1, deterministic per seed. -/
theorem voice_runs_deterministic (sr1 sr2 : ℝ) (seed1 seed2 : ℕ)
    (blocks1 blocks2 : List VoiceBlockIn) (st1 st2 : GlottisState × TractState)
    (hsr : sr1 = sr2) (hseed : seed1 = seed2) (hb : blocks1 = blocks2) (hst : st1 = st2) :
    voiceRun sr1 (simplex1 seed1) blocks1 st1 = voiceRun sr2 (simplex1 seed2) blocks2 st2 := by
  subst hsr
  subst hseed
  subst hb
  subst hst
  rfl

/-- Claim C9 witness: determinism applied at sample rate 48000, seed 0,
    an empty block list and the probe states. -/
theorem voice_runs_deterministic_witness :
    (48000 : ℝ) = 48000 ∧
    voiceRun 48000 (simplex1 0) [] (probeGlottis, probeTract)
      = voiceRun 48000 (simplex1 0) [] (probeGlottis, probeTract) :=
  ⟨rfl, voice_runs_deterministic 48000 48000 0 0 [] [] (probeGlottis, probeTract)
    (probeGlottis, probeTract) rfl rfl rfl rfl⟩

/-- When the stored constriction diameter is at least -0.8 the velum
    side effect of setTargetDiameters does nothing. -/
theorem velumAfterSTD_of_ge (noseStart : ℕ) (cIndex cDia velum : ℝ)
    (h : -0.8 ≤ cDia) : velumAfterSTD noseStart cIndex cDia velum = velum := by
  unfold velumAfterSTD
  rw [if_neg]
  rintro ⟨-, -, -, h4⟩
  linarith

/-- The nasal diameter array produced by init: the rest profile with
    index 0 overwritten by the velum target after the setTargetDiameters
    side effect, which still reads the old noseStart. -/
theorem tractInit_noseDiameter (n : ℕ) (s : TractState) :
    (tractInit n s).noseDiameter
      = Function.update
          (fun i => if i < 28 * n / 44 then noseRestDiameter (28 * n / 44) i else 0) 0
          (velumAfterSTD s.noseStart s.constrictionIndex s.constrictionDiameter
            s.velumTarget) := rfl

/-- A state as a voice can leave it before a resize: the old noseStart
    23 comes from a previous init(60), and the stored constriction
    diameter -1 comes from a constriction-diameter parameter of -1.3,
    which the declared parameter range does not exclude. -/
def tractC10State : TractState :=
  { initialTractState with
    noseStart := 23
    constrictionIndex := 20
    constrictionDiameter := -1 }

/-- Claim C10 counterexample: from this state, one init(44) leaves
    noseDiameter[0] = 0.01 (the velum condition fails against the old
    noseStart 23), but a second init(44) sees the new noseStart 17,
    fires the velum side effect, and leaves noseDiameter[0] = 0.4, so
    the waveguide arrays of init-twice and init-once differ. -/
theorem tractInit_twice_differs :
    ¬ ((tractInit 44 (tractInit 44 tractC10State)).noseDiameter 0
      = (tractInit 44 tractC10State).noseDiameter 0) := by
  have h1 : (tractInit 44 tractC10State).noseDiameter 0
      = velumAfterSTD 23 20 (-1) 0.01 := by
    rw [tractInit_noseDiameter, Function.update_same]
    rfl
  have h2 : (tractInit 44 (tractInit 44 tractC10State)).noseDiameter 0
      = velumAfterSTD 17 20 (-1) (velumAfterSTD 23 20 (-1) 0.01) := by
    rw [tractInit_noseDiameter, Function.update_same]
    rfl
  have e1 : velumAfterSTD 23 20 (-1) 0.01 = 0.01 := by
    unfold velumAfterSTD
    rw [if_neg]
    rintro ⟨-, -, h3, -⟩
    norm_num at h3
  have e2 : velumAfterSTD 17 20 (-1) 0.01 = 0.4 := by
    unfold velumAfterSTD
    rw [if_pos]
    refine ⟨by norm_num, by norm_num, by norm_num, by norm_num⟩
  rw [h1, h2, e1, e2]
  norm_num

/-- Claim C10 amended: for a supported tract length and a stored
    constriction diameter of at least -0.8 (the declared parameter
    range gives at least 0.3), init(n) twice in succession with
    unchanged control parameters leaves every waveguide array identical
    to init(n) once.  Without the diameter bound the velum side effect
    of setTargetDiameters can see a different noseStart in the second
    call and change noseDiameter[0]. -/
theorem tractInit_idempotent (n : ℕ) (s : TractState)
    (h30 : 30 ≤ n) (h60 : n ≤ 60) (hdia : -0.8 ≤ s.constrictionDiameter) :
    (tractInit n (tractInit n s)).R = (tractInit n s).R ∧
    (tractInit n (tractInit n s)).L = (tractInit n s).L ∧
    (tractInit n (tractInit n s)).reflection = (tractInit n s).reflection ∧
    (tractInit n (tractInit n s)).newReflection = (tractInit n s).newReflection ∧
    (tractInit n (tractInit n s)).junctionOutputR = (tractInit n s).junctionOutputR ∧
    (tractInit n (tractInit n s)).junctionOutputL = (tractInit n s).junctionOutputL ∧
    (tractInit n (tractInit n s)).diameter = (tractInit n s).diameter ∧
    (tractInit n (tractInit n s)).targetDiameter = (tractInit n s).targetDiameter ∧
    (tractInit n (tractInit n s)).A = (tractInit n s).A ∧
    (tractInit n (tractInit n s)).noseR = (tractInit n s).noseR ∧
    (tractInit n (tractInit n s)).noseL = (tractInit n s).noseL ∧
    (tractInit n (tractInit n s)).noseReflection = (tractInit n s).noseReflection ∧
    (tractInit n (tractInit n s)).noseJunctionOutputR
        = (tractInit n s).noseJunctionOutputR ∧
    (tractInit n (tractInit n s)).noseJunctionOutputL
        = (tractInit n s).noseJunctionOutputL ∧
    (tractInit n (tractInit n s)).noseDiameter = (tractInit n s).noseDiameter ∧
    (tractInit n (tractInit n s)).noseA = (tractInit n s).noseA := by
  refine ⟨rfl, rfl, rfl, rfl, rfl, rfl, rfl, rfl, rfl, rfl, rfl, rfl, rfl, rfl, ?_, rfl⟩
  rw [tractInit_noseDiameter, tractInit_noseDiameter]
  have hc1 : (tractInit n s).constrictionIndex = s.constrictionIndex := rfl
  have hc2 : (tractInit n s).constrictionDiameter = s.constrictionDiameter := rfl
  have hc3 : (tractInit n s).velumTarget
      = velumAfterSTD s.noseStart s.constrictionIndex s.constrictionDiameter
          s.velumTarget := rfl
  rw [hc1, hc2, hc3, velumAfterSTD_of_ge _ _ _ _ hdia,
    velumAfterSTD_of_ge _ _ _ _ hdia]

/-- Claim C10 witness: idempotence applied at n = 44 to the probe state,
    whose stored constriction diameter is 3. -/
theorem tractInit_idempotent_witness :
    30 ≤ 44 ∧ 44 ≤ 60 ∧ (-0.8 : ℝ) ≤ probeTract.constrictionDiameter ∧
    (tractInit 44 (tractInit 44 probeTract)).noseDiameter
      = (tractInit 44 probeTract).noseDiameter :=
  ⟨by norm_num, by norm_num, by norm_num [probeTract, initialTractState],
   (tractInit_idempotent 44 probeTract (by norm_num) (by norm_num)
     (by norm_num [probeTract, initialTractState])).2.2.2.2.2.2.2.2.2.2.2.2.2.2.1⟩

/-- One runStep only writes the wave arrays, the junction arrays, the
    transient list and the two outputs; the tract shape fields pass
    through. -/
theorem tractRunStep_shape (sr g t lam nm : ℝ) (s : TractState) :
    (tractRunStep sr g t lam nm s).n = s.n ∧
    (tractRunStep sr g t lam nm s).noseStart = s.noseStart ∧
    (tractRunStep sr g t lam nm s).tipStart = s.tipStart ∧
    (tractRunStep sr g t lam nm s).diameter = s.diameter ∧
    (tractRunStep sr g t lam nm s).targetDiameter = s.targetDiameter ∧
    (tractRunStep sr g t lam nm s).noseDiameter = s.noseDiameter ∧
    (tractRunStep sr g t lam nm s).noseA = s.noseA ∧
    (tractRunStep sr g t lam nm s).velumTarget = s.velumTarget ∧
    (tractRunStep sr g t lam nm s).movementSpeed = s.movementSpeed ∧
    (tractRunStep sr g t lam nm s).A = s.A := by
  unfold tractRunStep addTurbulenceNoise
  split
  · exact ⟨rfl, rfl, rfl, rfl, rfl, rfl, rfl, rfl, rfl, rfl⟩
  · split
    · exact ⟨rfl, rfl, rfl, rfl, rfl, rfl, rfl, rfl, rfl, rfl⟩
    · exact ⟨rfl, rfl, rfl, rfl, rfl, rfl, rfl, rfl, rfl, rfl⟩

/-- The Tract sample loop preserves the tract shape fields. -/
theorem runTractSamples_shape (sr Nf : ℝ) (l : List TractIn) : ∀ (j : ℕ) (s : TractState),
    (runTractSamples sr Nf j l s).2.n = s.n ∧
    (runTractSamples sr Nf j l s).2.noseStart = s.noseStart ∧
    (runTractSamples sr Nf j l s).2.tipStart = s.tipStart ∧
    (runTractSamples sr Nf j l s).2.diameter = s.diameter ∧
    (runTractSamples sr Nf j l s).2.targetDiameter = s.targetDiameter ∧
    (runTractSamples sr Nf j l s).2.noseDiameter = s.noseDiameter ∧
    (runTractSamples sr Nf j l s).2.noseA = s.noseA ∧
    (runTractSamples sr Nf j l s).2.velumTarget = s.velumTarget ∧
    (runTractSamples sr Nf j l s).2.movementSpeed = s.movementSpeed ∧
    (runTractSamples sr Nf j l s).2.A = s.A := by
  induction l with
  | nil => exact fun j s => ⟨rfl, rfl, rfl, rfl, rfl, rfl, rfl, rfl, rfl, rfl⟩
  | cons a rest ih =>
    intro j s
    obtain ⟨e1, e2, e3, e4, e5, e6, e7, e8, e9, e10⟩ :=
      tractRunStep_shape sr (a.aspiration + a.glottal) a.fricative ((j : ℝ) / Nf)
        a.noiseMod s
    obtain ⟨f1, f2, f3, f4, f5, f6, f7, f8, f9, f10⟩ :=
      tractRunStep_shape sr (a.aspiration + a.glottal) a.fricative
        (((j : ℝ) + 0.5) / Nf) a.noiseMod
        (tractRunStep sr (a.aspiration + a.glottal) a.fricative ((j : ℝ) / Nf) a.noiseMod s)
    obtain ⟨g1, g2, g3, g4, g5, g6, g7, g8, g9, g10⟩ :=
      ih (j + 1)
        (tractRunStep sr (a.aspiration + a.glottal) a.fricative (((j : ℝ) + 0.5) / Nf)
          a.noiseMod
          (tractRunStep sr (a.aspiration + a.glottal) a.fricative ((j : ℝ) / Nf)
            a.noiseMod s))
    exact ⟨g1.trans (f1.trans e1), g2.trans (f2.trans e2), g3.trans (f3.trans e3),
      g4.trans (f4.trans e4), g5.trans (f5.trans e5), g6.trans (f6.trans e6),
      g7.trans (f7.trans e7), g8.trans (f8.trans e8), g9.trans (f9.trans e9),
      g10.trans (f10.trans e10)⟩

theorem runTractSamples_n (sr Nf : ℝ) (l : List TractIn) (j : ℕ) (s : TractState) :
    (runTractSamples sr Nf j l s).2.n = s.n := (runTractSamples_shape sr Nf l j s).1

theorem runTractSamples_noseStart (sr Nf : ℝ) (l : List TractIn) (j : ℕ) (s : TractState) :
    (runTractSamples sr Nf j l s).2.noseStart = s.noseStart :=
  (runTractSamples_shape sr Nf l j s).2.1

theorem runTractSamples_diameter (sr Nf : ℝ) (l : List TractIn) (j : ℕ) (s : TractState) :
    (runTractSamples sr Nf j l s).2.diameter = s.diameter :=
  (runTractSamples_shape sr Nf l j s).2.2.2.1

theorem runTractSamples_targetDiameter (sr Nf : ℝ) (l : List TractIn) (j : ℕ)
    (s : TractState) :
    (runTractSamples sr Nf j l s).2.targetDiameter = s.targetDiameter :=
  (runTractSamples_shape sr Nf l j s).2.2.2.2.1

theorem runTractSamples_noseDiameter (sr Nf : ℝ) (l : List TractIn) (j : ℕ)
    (s : TractState) :
    (runTractSamples sr Nf j l s).2.noseDiameter = s.noseDiameter :=
  (runTractSamples_shape sr Nf l j s).2.2.2.2.2.1

theorem runTractSamples_velumTarget (sr Nf : ℝ) (l : List TractIn) (j : ℕ)
    (s : TractState) :
    (runTractSamples sr Nf j l s).2.velumTarget = s.velumTarget :=
  (runTractSamples_shape sr Nf l j s).2.2.2.2.2.2.2.1

theorem runTractSamples_movementSpeed (sr Nf : ℝ) (l : List TractIn) (j : ℕ)
    (s : TractState) :
    (runTractSamples sr Nf j l s).2.movementSpeed = s.movementSpeed :=
  (runTractSamples_shape sr Nf l j s).2.2.2.2.2.2.2.2.1

theorem runTractSamples_A (sr Nf : ℝ) (l : List TractIn) (j : ℕ) (s : TractState) :
    (runTractSamples sr Nf j l s).2.A = s.A := (runTractSamples_shape sr Nf l j s).2.2.2.2.2.2.2.2.2

/-- moveTowards keeps a positive value positive when the target is
    positive and the upward amount is nonnegative. -/
theorem moveTowards_pos (current target up down : ℝ) (hc : 0 < current) (ht : 0 < target)
    (hup : 0 ≤ up) : 0 < moveTowards current target up down := by
  unfold moveTowards
  split
  · exact lt_min (by linarith) ht
  · exact lt_max_of_lt_right ht

/-- The velum side effect keeps a positive velum target positive. -/
theorem velumAfterSTD_pos (noseStart : ℕ) (cIndex cDia v : ℝ) (hv : 0 < v) :
    0 < velumAfterSTD noseStart cIndex cDia v := by
  unfold velumAfterSTD
  split
  · norm_num
  · exact hv

/-- After finishBlock, the three-port junction sum is positive whenever
    the sample rate is positive, noseDiameter[0] and the velum target
    are positive before the block end, and the stored areas are
    nonnegative. -/
theorem finishBlock_sum_pos (sr : ℝ) (x : TractState) (hsr : 0 < sr)
    (hd : 0 < x.noseDiameter 0) (hv : 0 < x.velumTarget) (hA : ∀ i, 0 ≤ x.A i) :
    0 < (finishTractBlock sr x).A (finishTractBlock sr x).noseStart
      + (finishTractBlock sr x).A ((finishTractBlock sr x).noseStart + 1)
      + (finishTractBlock sr x).noseA 0 := by
  have hnd0 : 0 < (reshapeTract (128 / sr) x).noseDiameter 0 := by
    show 0 < if x.movementSpeed < 0 then x.velumTarget
      else moveTowards (x.noseDiameter 0) x.velumTarget
        (128 / sr * x.movementSpeed * 0.25) (128 / sr * x.movementSpeed * 0.1)
    split_ifs with h
    · exact hv
    · refine moveTowards_pos _ _ _ _ hd hv ?_
      have hms : 0 ≤ x.movementSpeed := not_lt.mp h
      have hdt : (0 : ℝ) ≤ 128 / sr := by positivity
      nlinarith
  have hz : 0 < (finishTractBlock sr x).noseA 0 := by
    have he : (finishTractBlock sr x).noseA 0
        = (reshapeTract (128 / sr) x).noseDiameter 0
          * (reshapeTract (128 / sr) x).noseDiameter 0 := rfl
    rw [he]
    exact mul_pos hnd0 hnd0
  have h1 : 0 ≤ (finishTractBlock sr x).A (finishTractBlock sr x).noseStart := by
    show 0 ≤ if x.noseStart < x.n
      then (reshapeTract (128 / sr) x).diameter x.noseStart
        * (reshapeTract (128 / sr) x).diameter x.noseStart
      else x.A x.noseStart
    split_ifs with h
    · exact mul_self_nonneg _
    · exact hA _
  have h2 : 0 ≤ (finishTractBlock sr x).A ((finishTractBlock sr x).noseStart + 1) := by
    show 0 ≤ if x.noseStart + 1 < x.n
      then (reshapeTract (128 / sr) x).diameter (x.noseStart + 1)
        * (reshapeTract (128 / sr) x).diameter (x.noseStart + 1)
      else x.A (x.noseStart + 1)
    split_ifs with h
    · exact mul_self_nonneg _
    · exact hA _
  linarith

/-- Claim C4 amended: after a Tract process block that does not trigger
    a re-init, with a positive sample rate, a positive velum-target
    parameter, a positive noseDiameter[0] beforehand and nonnegative
    stored areas, the three-port junction sum
    A[noseStart] + A[noseStart+1] + noseA[0] is strictly positive.
    Positivity can fail when velum-target is 0 and a full closure sits
    on the two oral segments at the nose junction. -/
theorem block_nose_sum_pos (sr : ℝ) (p : TractParams) (ins : List TractIn) (s : TractState)
    (hsr : 0 < sr) (hn : ⌊p.n⌋ = (s.n : ℤ)) (hv : 0 < p.velumTarget)
    (hd : 0 < s.noseDiameter 0) (hA : ∀ i, 0 ≤ s.A i) :
    0 < (tractProcessBlock sr p ins s).2.A (tractProcessBlock sr p ins s).2.noseStart
      + (tractProcessBlock sr p ins s).2.A
          ((tractProcessBlock sr p ins s).2.noseStart + 1)
      + (tractProcessBlock sr p ins s).2.noseA 0 := by
  have hs0 : (if ⌊p.n⌋ ≠ (s.n : ℤ) then tractInit (⌊p.n⌋).toNat s else s) = s :=
    if_neg (not_not_intro hn)
  simp only [tractProcessBlock, hs0]
  apply finishBlock_sum_pos sr _ hsr
  · rw [runTractSamples_noseDiameter]
    exact hd
  · rw [runTractSamples_velumTarget]
    exact velumAfterSTD_pos _ _ _ _ hv
  · rw [runTractSamples_A]
    exact hA

/-- Claim C4 amended witness: the positivity applied to the constructed
    state and a one-sample block with default-like parameters. -/
theorem block_nose_sum_pos_witness :
    (0 : ℝ) < 48000 ∧
    ⌊(44 : ℝ)⌋ = ((tractInit 44 initialTractState).n : ℤ) ∧
    (0 : ℝ) < 0.01 ∧
    0 < (tractInit 44 initialTractState).noseDiameter 0 ∧
    (∀ i, 0 ≤ (tractInit 44 initialTractState).A i) ∧
    0 < (tractProcessBlock 48000
          { n := 44, velumTarget := 0.01, constrictionIndex := 0,
            constrictionDiameter := 3, tongueIndex := 0.5, tongueDiameter := 2.43,
            lipDiameter := 1.5, movementSpeed := 15, fricatives := 1, transients := 1 }
          [{ glottal := 0, aspiration := 0, fricative := 0, noiseMod := 0 }]
          (tractInit 44 initialTractState)).2.A
        (tractProcessBlock 48000
          { n := 44, velumTarget := 0.01, constrictionIndex := 0,
            constrictionDiameter := 3, tongueIndex := 0.5, tongueDiameter := 2.43,
            lipDiameter := 1.5, movementSpeed := 15, fricatives := 1, transients := 1 }
          [{ glottal := 0, aspiration := 0, fricative := 0, noiseMod := 0 }]
          (tractInit 44 initialTractState)).2.noseStart
      + (tractProcessBlock 48000
          { n := 44, velumTarget := 0.01, constrictionIndex := 0,
            constrictionDiameter := 3, tongueIndex := 0.5, tongueDiameter := 2.43,
            lipDiameter := 1.5, movementSpeed := 15, fricatives := 1, transients := 1 }
          [{ glottal := 0, aspiration := 0, fricative := 0, noiseMod := 0 }]
          (tractInit 44 initialTractState)).2.A
        ((tractProcessBlock 48000
          { n := 44, velumTarget := 0.01, constrictionIndex := 0,
            constrictionDiameter := 3, tongueIndex := 0.5, tongueDiameter := 2.43,
            lipDiameter := 1.5, movementSpeed := 15, fricatives := 1, transients := 1 }
          [{ glottal := 0, aspiration := 0, fricative := 0, noiseMod := 0 }]
          (tractInit 44 initialTractState)).2.noseStart + 1)
      + (tractProcessBlock 48000
          { n := 44, velumTarget := 0.01, constrictionIndex := 0,
            constrictionDiameter := 3, tongueIndex := 0.5, tongueDiameter := 2.43,
            lipDiameter := 1.5, movementSpeed := 15, fricatives := 1, transients := 1 }
          [{ glottal := 0, aspiration := 0, fricative := 0, noiseMod := 0 }]
          (tractInit 44 initialTractState)).2.noseA 0 := by
  have hd : 0 < (tractInit 44 initialTractState).noseDiameter 0 := by
    rw [tractInit_noseDiameter, Function.update_same,
      velumAfterSTD_of_ge _ _ _ _ (by norm_num [initialTractState])]
    norm_num [initialTractState]
  have hA : ∀ i, 0 ≤ (tractInit 44 initialTractState).A i := by
    intro i
    show 0 ≤ if i < 44
      then (tractInit 44 initialTractState).diameter i
        * (tractInit 44 initialTractState).diameter i
      else (0 : ℝ)
    split_ifs with h
    · exact mul_self_nonneg _
    · exact le_refl 0
  have hfloor : ⌊(44 : ℝ)⌋ = ((tractInit 44 initialTractState).n : ℤ) := by
    show ⌊(44 : ℝ)⌋ = ((44 : ℕ) : ℤ)
    norm_num
  exact ⟨by norm_num, hfloor, by norm_num, hd, hA,
    block_nose_sum_pos 48000 _ _ _ (by norm_num) hfloor (by norm_num) hd hA⟩

/-- The tongue cosine bump never drives the target diameter to 0 when
    its coefficient stays below 1.4. -/
theorem one_point_five_sub_cos_pos (c θ : ℝ) (h0 : 0 ≤ c) (h1 : c ≤ 1.4) :
    0 < 1.5 - c * Real.cos θ := by
  have hc := Real.cos_le_one θ
  nlinarith

/-- A constriction at index 17.5 with stored diameter 0.3 (parameter 0)
    drives the target diameters of segments 17 and 18 exactly to 0: both
    segments lie within half a step of the constriction index, so the
    shrink factor is 0 and the in-range tongue-stage value (positive by
    the cosine bound) is replaced by the constriction diameter 0. -/
theorem targetC4_at (old : ℕ → ℝ) (tIdx tDia ci cd ld : ℝ)
    (htd1 : 2.05 ≤ tDia) (htd2 : tDia ≤ 3.5) (hci : ci = 17.5) (hcd : cd = 0.3)
    (p : ℕ) (hp : p = 17 ∨ p = 18) :
    targetAfterSTD 44 10 32 39 tIdx tDia ci cd ld old p = 0 := by
  subst hci
  subst hcd
  have hr42 : round (((44 : ℕ) : ℝ) - 2) = 42 := by
    rw [round_eq, Int.floor_eq_iff]
    norm_num
  have hr18 : round (17.5 : ℝ) = 18 := by
    rw [round_eq, Int.floor_eq_iff]
    norm_num
  have hw : map (17.5 : ℝ) (25 / 44 * ((44 : ℕ) : ℝ)) ((32 : ℕ) : ℝ) 10 5 / 44
      * ((44 : ℕ) : ℝ) = 10 := by
    unfold map constrain
    norm_num [min_def, max_def]
  have hbase : ∀ q : ℕ, 10 ≤ q → q < 39 → q ≠ 8 → q ≠ 38 → q ≠ 10 → q ≠ 37 →
      0 < tongueShape 10 32 39 tIdx tDia (fun i => if i < 44 then restDiameter 44 i else old i) q := by
    intro q hq1 hq2 hq3 hq4 hq5 hq6
    unfold tongueShape
    rw [if_pos ⟨hq1, hq2⟩]
    dsimp only
    rw [if_neg (by omega), if_neg (by omega)]
    have hdiv1 : 0 ≤ (tDia - 2) / 1.5 := div_nonneg (by linarith) (by norm_num)
    have hdiv2 : (tDia - 2) / 1.5 ≤ 1 := by
      rw [div_le_one (by norm_num)]
      linarith
    refine one_point_five_sub_cos_pos _ _ (by linarith) (by linarith)
  rcases hp with rfl | rfl
  · unfold targetAfterSTD lipShape
    rw [hr42, if_neg (by norm_num)]
    unfold constrictionShape
    rw [hr18, hw]
    rw [if_pos ⟨by norm_num, by norm_num, by norm_num, by norm_num, by norm_num,
      by norm_num, by norm_num, by norm_num⟩]
    have hrel : |((17 : ℕ) : ℝ) - 17.5| - 0.5 = 0 := by
      rw [show ((17 : ℕ) : ℝ) - 17.5 = -(0.5) from by norm_num, abs_neg,
        abs_of_pos (by norm_num)]
      norm_num
    rw [if_pos]
    · rw [hrel]
      unfold shrinkAmount
      rw [if_pos le_rfl]
      norm_num
    · rw [if_neg (by norm_num)]
      have := hbase 17 (by norm_num) (by norm_num) (by norm_num) (by norm_num)
        (by norm_num) (by norm_num)
      linarith
  · unfold targetAfterSTD lipShape
    rw [hr42, if_neg (by norm_num)]
    unfold constrictionShape
    rw [hr18, hw]
    rw [if_pos ⟨by norm_num, by norm_num, by norm_num, by norm_num, by norm_num,
      by norm_num, by norm_num, by norm_num⟩]
    have hrel : |((18 : ℕ) : ℝ) - 17.5| - 0.5 = 0 := by
      rw [show ((18 : ℕ) : ℝ) - 17.5 = 0.5 from by norm_num,
        abs_of_pos (by norm_num)]
      norm_num
    rw [if_pos]
    · rw [hrel]
      unfold shrinkAmount
      rw [if_pos le_rfl]
      norm_num
    · rw [if_neg (by norm_num)]
      have := hbase 18 (by norm_num) (by norm_num) (by norm_num) (by norm_num)
        (by norm_num) (by norm_num)
      linarith

/-- With instant movement, target diameters 0 on segments 17 and 18,
    noseStart 17 and velum target 0, the three-port junction sum is
    exactly 0 after finishBlock. -/
theorem closure_finish_sum_not_pos (sr : ℝ) (x : TractState)
    (hn : x.n = 44) (hns : x.noseStart = 17) (hms : x.movementSpeed < 0)
    (ht17 : x.targetDiameter 17 = 0) (ht18 : x.targetDiameter 18 = 0)
    (hv : x.velumTarget = 0) :
    ¬ (0 < (finishTractBlock sr x).A (finishTractBlock sr x).noseStart
      + (finishTractBlock sr x).A ((finishTractBlock sr x).noseStart + 1)
      + (finishTractBlock sr x).noseA 0) := by
  have hd17 : (reshapeTract (128 / sr) x).diameter x.noseStart = 0 := by
    show (if x.noseStart < x.n
      then (if x.movementSpeed < 0 then x.targetDiameter x.noseStart
        else moveTowards (x.diameter x.noseStart) (x.targetDiameter x.noseStart)
          (slowReturn x.noseStart x.tipStart x.noseStart * (128 / sr * x.movementSpeed))
          (2 * (128 / sr * x.movementSpeed)))
      else x.diameter x.noseStart) = 0
    rw [if_pos (by rw [hn, hns]; norm_num), if_pos hms, hns, ht17]
  have hd18 : (reshapeTract (128 / sr) x).diameter (x.noseStart + 1) = 0 := by
    show (if x.noseStart + 1 < x.n
      then (if x.movementSpeed < 0 then x.targetDiameter (x.noseStart + 1)
        else moveTowards (x.diameter (x.noseStart + 1)) (x.targetDiameter (x.noseStart + 1))
          (slowReturn x.noseStart x.tipStart (x.noseStart + 1) * (128 / sr * x.movementSpeed))
          (2 * (128 / sr * x.movementSpeed)))
      else x.diameter (x.noseStart + 1)) = 0
    rw [if_pos (by rw [hn, hns]; norm_num), if_pos hms, hns, ht18]
  have hA17 : (finishTractBlock sr x).A (finishTractBlock sr x).noseStart = 0 := by
    show (if x.noseStart < x.n
      then (reshapeTract (128 / sr) x).diameter x.noseStart
        * (reshapeTract (128 / sr) x).diameter x.noseStart
      else x.A x.noseStart) = 0
    rw [if_pos (by rw [hn, hns]; norm_num), hd17]
    ring
  have hA18 : (finishTractBlock sr x).A ((finishTractBlock sr x).noseStart + 1) = 0 := by
    show (if x.noseStart + 1 < x.n
      then (reshapeTract (128 / sr) x).diameter (x.noseStart + 1)
        * (reshapeTract (128 / sr) x).diameter (x.noseStart + 1)
      else x.A (x.noseStart + 1)) = 0
    rw [if_pos (by rw [hn, hns]; norm_num), hd18]
    ring
  have hz : (finishTractBlock sr x).noseA 0 = 0 := by
    have he : (finishTractBlock sr x).noseA 0
        = (reshapeTract (128 / sr) x).noseDiameter 0
          * (reshapeTract (128 / sr) x).noseDiameter 0 := rfl
    have hnd0 : (reshapeTract (128 / sr) x).noseDiameter 0 = 0 := by
      show (if x.movementSpeed < 0 then x.velumTarget
        else moveTowards (x.noseDiameter 0) x.velumTarget
          (128 / sr * x.movementSpeed * 0.25) (128 / sr * x.movementSpeed * 0.1)) = 0
      rw [if_pos hms, hv]
    rw [he, hnd0]
    ring
  rw [hA17, hA18, hz]
  norm_num

/-- Block parameters that close the tract exactly over the two oral
    segments at the nose junction while shutting the velum: every value
    is inside the declared parameter range (movement-speed has no
    declared bounds and its code comment documents -1 as instant). -/
def tractC4Params : TractParams where
  n := 44
  velumTarget := 0
  constrictionIndex := 17.5 / 44
  constrictionDiameter := 0
  tongueIndex := 0.5
  tongueDiameter := 2.43
  lipDiameter := 1.5
  movementSpeed := -1
  fricatives := 1
  transients := 1

/-- The state of a freshly constructed Tract voice. -/
def tractC4Start : TractState := tractInit 44 initialTractState

/-- One 128-sample block of silent inputs. -/
def tractC4Ins : List TractIn :=
  List.replicate 128 { glottal := 0, aspiration := 0, fricative := 0, noiseMod := 0 }

/-- Claim C4 counterexample: one process block from the freshly
    constructed state, with all parameters inside their declared ranges
    (velum-target 0, constriction-index 17.5/44, constriction-diameter
    0, movement-speed -1 for instant motion), drives
    A[noseStart] + A[noseStart+1] + noseA[0] to exactly 0, so the sum is
    not strictly positive and the three-way junction reflections divide
    by zero. -/
theorem closure_block_sum_not_pos :
    ¬ (0 < (tractProcessBlock 48000 tractC4Params tractC4Ins tractC4Start).2.A
          (tractProcessBlock 48000 tractC4Params tractC4Ins tractC4Start).2.noseStart
        + (tractProcessBlock 48000 tractC4Params tractC4Ins tractC4Start).2.A
          ((tractProcessBlock 48000 tractC4Params tractC4Ins tractC4Start).2.noseStart + 1)
        + (tractProcessBlock 48000 tractC4Params tractC4Ins tractC4Start).2.noseA 0) := by
  have hs0 : (if ⌊tractC4Params.n⌋ ≠ (tractC4Start.n : ℤ)
      then tractInit (⌊tractC4Params.n⌋).toNat tractC4Start else tractC4Start)
      = tractC4Start := by
    rw [if_neg]
    rw [not_ne_iff]
    show ⌊(44 : ℝ)⌋ = ((44 : ℕ) : ℤ)
    norm_num
  simp only [tractProcessBlock, hs0]
  apply closure_finish_sum_not_pos
  · rw [runTractSamples_n]
    rfl
  · rw [runTractSamples_noseStart]
    rfl
  · rw [runTractSamples_movementSpeed]
    show (-1 : ℝ) < 0
    norm_num
  · rw [runTractSamples_targetDiameter]
    exact targetC4_at _ _ _ _ _ _
      (show (2.05 : ℝ) ≤ 2.43 by norm_num) (show (2.43 : ℝ) ≤ 3.5 by norm_num)
      (show (17.5 / 44 : ℝ) * ((44 : ℕ) : ℝ) = 17.5 by norm_num)
      (show (0 : ℝ) + 0.3 = 0.3 by norm_num) 17 (Or.inl rfl)
  · rw [runTractSamples_targetDiameter]
    exact targetC4_at _ _ _ _ _ _
      (show (2.05 : ℝ) ≤ 2.43 by norm_num) (show (2.43 : ℝ) ≤ 3.5 by norm_num)
      (show (17.5 / 44 : ℝ) * ((44 : ℕ) : ℝ) = 17.5 by norm_num)
      (show (0 : ℝ) + 0.3 = 0.3 by norm_num) 18 (Or.inr rfl)
  · rw [runTractSamples_velumTarget]
    exact velumAfterSTD_of_ge _ _ _ _ (show (-0.8 : ℝ) ≤ 0 + 0.3 by norm_num)

end
